import Mathlib

/-!
Shallow embedding of the resilience core of the mixamo-blend-pipeline
repository: the retry-with-backoff decorator and circuit breaker of
`src/utils/retry.py`, and the GCS upload path of `src/uploader/uploader.py`.

Python exceptions are modelled by the inductive `Exc`; a fallible call
produces a `Res α` (normal return or raised exception).  Wall-clock times
(`datetime.now()`, `time.time()`) and float durations are modelled by `ℚ`
and are passed explicitly.  Randomness (`random.uniform`) is passed as an
explicit draw.  `time.sleep` and logging are no-ops for the properties in
question and are not modelled.
-/

namespace Mixamo

/-- Model of the Python exception classes that occur in the code under
study.  Every constructor models a subclass of `Exception`, so the
catch-all tuple `(Exception,)` corresponds to the always-true predicate. -/
inductive Exc where
  | connectionError : String → Exc
  | valueError : String → Exc
  | circuitBreakerError : String → Exc
  | runtimeError : String → Exc
  | nameError : String → Exc
  | zeroDivisionError : String → Exc
deriving DecidableEq

/-- Outcome of one invocation of a fallible Python callable: a normal
return value or a raised exception. -/
inductive Res (α : Type) where
  | ok : α → Res α
  | exc : Exc → Res α
deriving DecidableEq

/-- Embedding of `calculate_backoff_delay` (src/utils/retry.py, lines
73-116).  `attempt` is a Python `int` and may be negative; `**` on a
float base with a negative integer exponent is total in Python except
when the base is `0.0`, where it raises `ZeroDivisionError` — that
partiality of the source's `multiplier ** attempt` is the `.error`
branch.  The jitter draw `random.uniform(0.5, 1.5)` is passed in as
`jitter_factor`. -/
def calculate_backoff_delay (attempt : ℤ) (base_delay max_delay multiplier : ℚ)
    (jitter : Bool) (jitter_factor : ℚ) : Except Exc ℚ :=
  if attempt < 0 ∧ multiplier = 0 then
    .error (.zeroDivisionError "0.0 cannot be raised to a negative power")
  else
    let delay := base_delay * multiplier ^ attempt
    let delay := min delay max_delay
    let delay := if jitter then delay * jitter_factor else delay
    .ok delay

/-- A stateful fallible operation: from a state it produces the next
state, a result, and the number of invocations of the underlying real
operation that it performed (so that "invokes the operation exactly N
times" is expressible). -/
abbrev StOp (σ α : Type) := σ → σ × Res α × Nat

/-- The retry loop of the `wrapper` closure inside `retry_with_backoff`
(src/utils/retry.py, lines 163-236), by fuel = remaining iterations of
`for attempt in range(max_attempts)`.  `last` is `last_exception`.  An
exception matching `retryable` (the `exceptions` tuple) is recorded and,
if attempts remain, retried; a non-matching exception is not caught by
the `except exceptions` clause and propagates at once.  When the loop
ends, `last_exception` is re-raised if set, else the synthetic
`RuntimeError(f"{func.__name__} failed without exception")` is raised. -/
def retryAux (funcName : String) (retryable : Exc → Bool) {σ α : Type} (op : StOp σ α) :
    Nat → Option Exc → σ → Nat → σ × Res α × Nat
  | 0, last, s, cnt =>
    match last with
    | some e => (s, .exc e, cnt)
    | none => (s, .exc (.runtimeError (funcName ++ " failed without exception")), cnt)
  | n + 1, _, s, cnt =>
    match op s with
    | (s', .ok v, c) => (s', .ok v, cnt + c)
    | (s', .exc e, c) =>
      if retryable e then retryAux funcName retryable op n (some e) s' (cnt + c)
      else (s', .exc e, cnt + c)

/-- Embedding of the `retry_with_backoff` decorator applied to an
operation.  Python's `range(max_attempts)` is empty for a non-positive
`max_attempts`, which `Int.toNat` captures. -/
def retry_with_backoff (funcName : String) (max_attempts : ℤ) (retryable : Exc → Bool)
    {σ α : Type} (op : StOp σ α) : StOp σ α :=
  fun s => retryAux funcName retryable op max_attempts.toNat none s 0

/-- An operation that fails on every invocation, raising `f k` on its
k-th invocation; the state is the invocation index. -/
def streamFailOp (f : Nat → Exc) : StOp Nat Unit :=
  fun k => (k + 1, .exc (f k), 1)

/-- Embedding of `CircuitState` (src/utils/retry.py, lines 245-256). -/
inductive CircuitState where
  | CLOSED
  | OPEN
  | HALF_OPEN
deriving DecidableEq

/-- Embedding of the `CircuitBreakerStats` dataclass (src/utils/retry.py,
lines 259-276). -/
structure CircuitBreakerStats where
  total_requests : Nat := 0
  successful_requests : Nat := 0
  failed_requests : Nat := 0
  last_failure_time : Option ℚ := none
  state_changes : Nat := 0
deriving DecidableEq

/-- Embedding of the `CircuitBreaker` class attributes (src/utils/retry.py,
`__init__`, lines 306-340).  `expected_exception` — a Python exception
class used in an `except` clause — is modelled as the membership
predicate of that class. -/
structure CircuitBreaker where
  failure_threshold : Nat := 5
  timeout : ℚ := 60
  expected_exception : Exc → Bool := fun _ => true
  half_open_max_attempts : Nat := 1
  state : CircuitState := .CLOSED
  failure_count : Nat := 0
  half_open_attempts : Nat := 0
  last_failure_time : Option ℚ := none
  opened_at : Option ℚ := none
  stats : CircuitBreakerStats := {}

/-- Embedding of `CircuitBreaker._should_attempt_reset` (lines 400-411):
`elapsed = (datetime.now() - self.opened_at).total_seconds()` and the
check `elapsed >= self.timeout`. -/
def CircuitBreaker.should_attempt_reset (b : CircuitBreaker) (now : ℚ) : Bool :=
  match b.opened_at with
  | none => true
  | some t => decide (b.timeout ≤ now - t)

/-- Embedding of `CircuitBreaker._transition_to_half_open` (lines 413-418). -/
def CircuitBreaker.transition_to_half_open (b : CircuitBreaker) : CircuitBreaker :=
  { b with
    state := .HALF_OPEN
    half_open_attempts := 0
    stats := { b.stats with state_changes := b.stats.state_changes + 1 } }

/-- Embedding of `CircuitBreaker._open_circuit` (lines 480-487). -/
def CircuitBreaker.open_circuit (b : CircuitBreaker) (now : ℚ) : CircuitBreaker :=
  { b with
    state := .OPEN
    opened_at := some now
    stats := { b.stats with state_changes := b.stats.state_changes + 1 } }

/-- Embedding of `CircuitBreaker._close_circuit` (lines 489-496). -/
def CircuitBreaker.close_circuit (b : CircuitBreaker) : CircuitBreaker :=
  { b with
    state := .CLOSED
    failure_count := 0
    opened_at := none
    half_open_attempts := 0
    stats := { b.stats with state_changes := b.stats.state_changes + 1 } }

/-- Embedding of `CircuitBreaker._on_success` (lines 420-440).  The
CLOSED branch's `if self.failure_count > 0: self.failure_count = 0` has
the net effect `failure_count := 0`. -/
def CircuitBreaker.on_success (b : CircuitBreaker) : CircuitBreaker :=
  let b := { b with
    stats := { b.stats with successful_requests := b.stats.successful_requests + 1 } }
  if b.state = .HALF_OPEN then b.close_circuit
  else if b.state = .CLOSED then { b with failure_count := 0 }
  else b

/-- Embedding of `CircuitBreaker._on_failure` (lines 442-478): counters
and `last_failure_time` are updated first, then HALF_OPEN reopens the
circuit and CLOSED opens it when the incremented count reaches the
threshold. -/
def CircuitBreaker.on_failure (b : CircuitBreaker) (now : ℚ) : CircuitBreaker :=
  let b := { b with
    failure_count := b.failure_count + 1
    last_failure_time := some now
    stats := { b.stats with
      failed_requests := b.stats.failed_requests + 1
      last_failure_time := some now } }
  if b.state = .HALF_OPEN then b.open_circuit now
  else if b.state = .CLOSED then
    if b.failure_threshold ≤ b.failure_count then b.open_circuit now else b
  else b

/-- The `self.stats.total_requests += 1` at the top of
`CircuitBreaker.call` (line 375). -/
def CircuitBreaker.bump_total (b : CircuitBreaker) : CircuitBreaker :=
  { b with stats := { b.stats with total_requests := b.stats.total_requests + 1 } }

/-- The OPEN-state gate at the head of `CircuitBreaker.call` (lines
377-385): while OPEN, either transition to HALF_OPEN (cool-down elapsed)
and allow the call, or refuse it; in any other state allow it. -/
def CircuitBreaker.gate (b : CircuitBreaker) (now : ℚ) : CircuitBreaker × Bool :=
  if b.state = .OPEN then
    if b.should_attempt_reset now then (b.transition_to_half_open, true)
    else (b, false)
  else (b, true)

/-- Embedding of `CircuitBreaker.call` (lines 358-398).  `r` is the
outcome the wrapped operation produces if it is invoked; the returned
`Bool` records whether the operation was invoked.  A refused call raises
`CircuitBreakerError("Circuit breaker is OPEN")`.  An exception matching
`expected_exception` is recorded by `_on_failure` and re-raised; any
other exception escapes the `except self.expected_exception` clause and
propagates without touching the breaker state. -/
def CircuitBreaker.call (b : CircuitBreaker) (now : ℚ) {α : Type} (r : Res α) :
    CircuitBreaker × Res α × Bool :=
  let b1 := b.bump_total
  match b1.gate now with
  | (b2, false) => (b2, .exc (.circuitBreakerError "Circuit breaker is OPEN"), false)
  | (b2, true) =>
    match r with
    | .ok v => (b2.on_success, .ok v, true)
    | .exc e =>
      if b2.expected_exception e then (b2.on_failure now, .exc e, true)
      else (b2, .exc e, true)

/-- A sequence of `j` breaker-guarded calls to an operation that raises
`e` whenever it is invoked, the i-th call issued at time `ti i`. -/
def iterate_calls (e : Exc) (ti : Nat → ℚ) (b : CircuitBreaker) : Nat → CircuitBreaker
  | 0 => b
  | j + 1 => ((iterate_calls e ti b j).call (ti j) (Res.exc e : Res Unit)).1

/-- `MAX_RETRIES` (src/uploader/uploader.py, line 42). -/
def MAX_RETRIES : ℤ := 3

/-- `MIN_FILE_SIZE_BYTES` (src/uploader/uploader.py, line 45). -/
def MIN_FILE_SIZE_BYTES : Nat := 10

/-- `MAX_FILE_SIZE_MB` (src/uploader/uploader.py, line 46). -/
def MAX_FILE_SIZE_MB : Nat := 500

/-- The circuit-breaker-guarded inner operation of `_perform_gcs_upload`:
the state carries the shared `gcs_circuit_breaker`, the index of the next
real GCS invocation outcome in `outcomes`, and the index of the next call
time in `ti`.  Each retry attempt enters `CircuitBreaker.call`; the real
operation's outcome stream advances only when the breaker lets the call
through. -/
def breaker_op (outcomes : Nat → Res Unit) (ti : Nat → ℚ) :
    StOp (CircuitBreaker × Nat × Nat) Unit :=
  fun st =>
    match st with
    | (b, k, j) =>
      match b.call (ti j) (outcomes k) with
      | (b', r, invoked) =>
        ((b', (if invoked then k + 1 else k), j + 1), r, if invoked then 1 else 0)

/-- The decorator stack on `_perform_gcs_upload` (src/uploader/uploader.py,
lines 328-341): `@retry_with_backoff(max_attempts=MAX_RETRIES, ...,
exceptions=(Exception,))` is written above `@gcs_circuit_breaker`, so the
retry wrapper is applied to the breaker-wrapped function — retry is the
outermost layer and every individual attempt passes through the breaker.
The catch-all `(Exception,)` is the always-true retry predicate. -/
def perform_gcs_upload_guarded (outcomes : Nat → Res Unit) (ti : Nat → ℚ)
    (b : CircuitBreaker) : (CircuitBreaker × Nat × Nat) × Res Unit × Nat :=
  retry_with_backoff "_perform_gcs_upload" MAX_RETRIES (fun _ => true)
    (breaker_op outcomes ti) (b, 0, 0)

/-- Python `pat in s` substring test, on the character list of `s`. -/
def strContainsAux (pat : List Char) : List Char → Bool
  | [] => pat.isEmpty
  | l@(_ :: rest) => pat.isPrefixOf l || strContainsAux pat rest

/-- Python `pat in s` for strings. -/
def strContains (s pat : String) : Bool :=
  strContainsAux pat.toList s.toList

/-- Python `s.startswith(pat)`. -/
def strStartsWith (s pat : String) : Bool :=
  pat.toList.isPrefixOf s.toList

/-- Embedding of `validate_gcs_path` (src/uploader/uploader.py, lines
96-150): empty bucket name, name longer than 63 characters, a
`goog`/`g00g` prefix, or a `".."`/`"._"` substring fail validation; the
destination-folder check only logs a warning and never fails. -/
def validate_gcs_path (bucket_name destination_folder : String) : Bool :=
  if bucket_name.toList.isEmpty then false
  else if 63 < bucket_name.toList.length then false
  else if strStartsWith bucket_name "goog" || strStartsWith bucket_name "g00g" then false
  else if strContains bucket_name ".." || strContains bucket_name "._" then false
  else true

/-- The facts about the local path that the `upload_file` validations
consult: `Path.exists()`, `Path.is_file()`, `Path.stat().st_size`. -/
structure LocalFile where
  path_exists : Bool
  is_file : Bool
  st_size : Nat
deriving DecidableEq

/-- Embedding of the `UploadConfig` fields that `upload_file`'s control
flow reads. -/
structure UploadConfig where
  bucket_name : String
  destination_folder : String

/-- Embedding of the `UploadResult` fields that the claims consult. -/
structure UploadResultM where
  success : Bool
  gcs_uri : Option String
  file_size_bytes : Nat
  error_message : Option String
deriving DecidableEq

/-- Embedding of the second, shadowing definition of `upload_file`
(src/uploader/uploader.py, lines 402-530).  The module defines
`upload_file` twice at top level; under Python's sequential module
execution the later `def` rebinds the name, so this second definition is
the effective one.  After all validations pass its body reaches
`successful = sum(1 for r in results if r.success)` where no `results`
variable is in scope, raising `NameError`; no upload is started on that
path, which is why the `performUpload` capability is never consulted. -/
def upload_file (performUpload : Res Unit) (f : LocalFile) (config : UploadConfig) :
    Except Exc UploadResultM :=
  if !f.path_exists then
    .ok { success := false, gcs_uri := none, file_size_bytes := 0,
          error_message := some "File not found" }
  else if !f.is_file then
    .ok { success := false, gcs_uri := none, file_size_bytes := 0,
          error_message := some "Path is not a file" }
  else if f.st_size < MIN_FILE_SIZE_BYTES then
    .ok { success := false, gcs_uri := none, file_size_bytes := f.st_size,
          error_message := some "File too small" }
  else if MAX_FILE_SIZE_MB * 1024 * 1024 < f.st_size then
    .ok { success := false, gcs_uri := none, file_size_bytes := f.st_size,
          error_message := some "File too large" }
  else if !validate_gcs_path config.bucket_name config.destination_folder then
    .ok { success := false, gcs_uri := none, file_size_bytes := f.st_size,
          error_message := some "Invalid GCS path configuration" }
  else
    .error (.nameError "name 'results' is not defined")

/-- The conjunction of the validation guards of `upload_file` that must
all pass for control to reach the `results` summary block. -/
def upload_validations_pass (f : LocalFile) (config : UploadConfig) : Bool :=
  f.path_exists && f.is_file && decide (MIN_FILE_SIZE_BYTES ≤ f.st_size)
    && decide (f.st_size ≤ MAX_FILE_SIZE_MB * 1024 * 1024)
    && validate_gcs_path config.bucket_name config.destination_folder

/-- C6: for every attempt index ≥ 0, with jitter disabled,
`calculate_backoff_delay` returns exactly
`min(base_delay * multiplier^attempt, max_delay)` and raises nothing. -/
theorem backoff_delay_no_jitter (attempt : ℤ) (h : 0 ≤ attempt)
    (base_delay max_delay multiplier jf : ℚ) :
    calculate_backoff_delay attempt base_delay max_delay multiplier false jf
      = .ok (min (base_delay * multiplier ^ attempt) max_delay) := by
  have hng : ¬(attempt < 0 ∧ multiplier = 0) := by
    rintro ⟨h1, _⟩
    exact absurd h1 (not_lt.mpr h)
  simp [calculate_backoff_delay, hng]

/-- Witness for C6 at attempt 2, base 1, cap 60, multiplier 2. -/
theorem backoff_delay_no_jitter_witness :
    (0 : ℤ) ≤ 2 ∧ calculate_backoff_delay 2 1 60 2 false 1 = .ok 4 := by
  refine ⟨by norm_num, ?_⟩
  rw [backoff_delay_no_jitter 2 (by norm_num) 1 60 2 1]
  norm_num [min_def]

/-- Counterexample to C8 as stated: at the negative attempt index `-1`
(base 1, cap 60, multiplier 2, jitter off) the computation does not fail
with any error — Python evaluates `2.0 ** -1` to `0.5` — and returns the
duration `1/2`. -/
theorem backoff_delay_negative_no_error :
    calculate_backoff_delay (-1) 1 60 2 false 1 = .ok (1 / 2)
      ∧ ∀ e, calculate_backoff_delay (-1) 1 60 2 false 1 ≠ .error e := by
  have hng : ¬((-1 : ℤ) < 0 ∧ (2 : ℚ) = 0) := by norm_num
  have hv : calculate_backoff_delay (-1) 1 60 2 false 1 = .ok (1 / 2) := by
    simp only [calculate_backoff_delay, hng, if_false]
    norm_num [min_def]
  exact ⟨hv, fun e he => by rw [hv] at he; exact Except.noConfusion he⟩

/-- C8 amended: a negative attempt is not rejected; whenever the power is
defined in Python (non-negative attempt, or nonzero multiplier), the
function returns `min(base_delay * multiplier^attempt, max_delay)` with
no exception and no side effects (the only failure mode is Python's
`0.0 ** negative`, i.e. `ZeroDivisionError`). -/
theorem backoff_delay_total_when_power_defined (attempt : ℤ)
    (base_delay max_delay multiplier jf : ℚ) (h : 0 ≤ attempt ∨ multiplier ≠ 0) :
    calculate_backoff_delay attempt base_delay max_delay multiplier false jf
      = .ok (min (base_delay * multiplier ^ attempt) max_delay) := by
  have hng : ¬(attempt < 0 ∧ multiplier = 0) := by
    rintro ⟨h1, h2⟩
    rcases h with h | h
    · exact absurd h1 (not_lt.mpr h)
    · exact h h2
  simp [calculate_backoff_delay, hng]

/-- Witness for the amended C8 at the negative attempt `-1`. -/
theorem backoff_delay_total_when_power_defined_witness :
    ((0 : ℤ) ≤ -1 ∨ (2 : ℚ) ≠ 0) ∧
      calculate_backoff_delay (-1) 1 60 2 false 1
        = .ok (min (1 * (2 : ℚ) ^ (-1 : ℤ)) 60) :=
  ⟨Or.inr (by norm_num),
    backoff_delay_total_when_power_defined (-1) 1 60 2 1 (Or.inr (by norm_num))⟩

/-- C10: a `retry_with_backoff`-decorated call with `max_attempts ≤ 0`
runs zero loop iterations, never invokes the wrapped operation, and
raises the synthetic `RuntimeError(f"{name} failed without exception")`. -/
theorem retry_nonpositive_synthetic_error {σ α : Type} (m : ℤ) (hm : m ≤ 0)
    (fn : String) (retryable : Exc → Bool) (op : StOp σ α) (s : σ) :
    retry_with_backoff fn m retryable op s
      = (s, Res.exc (.runtimeError (fn ++ " failed without exception")), 0) := by
  unfold retry_with_backoff
  rw [Int.toNat_of_nonpos hm]
  rfl

/-- Witness for C10 at `max_attempts = 0`. -/
theorem retry_nonpositive_synthetic_error_witness :
    (0 : ℤ) ≤ 0 ∧
      retry_with_backoff "op" 0 (fun _ => true)
          (streamFailOp fun _ => Exc.connectionError "x") 0
        = (0, Res.exc (.runtimeError ("op" ++ " failed without exception")), 0) :=
  ⟨le_refl 0,
    retry_nonpositive_synthetic_error 0 (le_refl 0) "op" (fun _ => true)
      (streamFailOp fun _ => Exc.connectionError "x") 0⟩

/-- When the operation fails retryably on every invocation, the retry
loop with fuel `n ≥ 1` performs exactly `n` further invocations and ends
by re-raising the exception of the last one. -/
theorem retryAux_all_fail (fn : String) (retryable : Exc → Bool) (f : Nat → Exc)
    (hf : ∀ k, retryable (f k) = true) :
    ∀ n, 1 ≤ n → ∀ (s cnt : Nat) (last : Option Exc),
      retryAux fn retryable (streamFailOp f) n last s cnt
        = (s + n, Res.exc (f (s + n - 1)), cnt + n) := by
  intro n
  induction n with
  | zero => intro h; exact absurd h (by omega)
  | succ n ih =>
    intro _ s cnt last
    simp only [retryAux, streamFailOp, hf s, if_true]
    rcases Nat.eq_zero_or_pos n with hn | hn
    · subst hn
      simp [retryAux]
    · rw [ih hn (s + 1) (cnt + 1) (some (f s))]
      have h1 : s + 1 + n = s + (n + 1) := by omega
      have h3 : cnt + 1 + n = cnt + (n + 1) := by omega
      rw [h1, h3]

/-- C1: a `retry_with_backoff`-decorated operation that raises a
retryable exception on every invocation is invoked exactly `N` times for
`max_attempts = N ≥ 1`, and the call ends by re-raising the last
invocation's exception value unchanged. -/
theorem retry_exhausts_and_reraises_last (N : ℕ) (hN : 1 ≤ N)
    (retryable : Exc → Bool) (f : ℕ → Exc) (hf : ∀ k, retryable (f k) = true) :
    retry_with_backoff "upload" (N : ℤ) retryable (streamFailOp f) 0
      = (N, Res.exc (f (N - 1)), N) := by
  unfold retry_with_backoff
  rw [Int.toNat_natCast]
  simpa using retryAux_all_fail "upload" retryable f hf N hN 0 0 none

/-- Witness for C1 at `N = 2` with a constant retryable failure. -/
theorem retry_exhausts_and_reraises_last_witness :
    1 ≤ 2 ∧
      retry_with_backoff "upload" ((2 : ℕ) : ℤ) (fun _ => true)
          (streamFailOp fun _ => Exc.connectionError "boom") 0
        = (2, Res.exc (Exc.connectionError "boom"), 2) :=
  ⟨by norm_num,
    retry_exhausts_and_reraises_last 2 (by norm_num) (fun _ => true)
      (fun _ => Exc.connectionError "boom") (fun _ => rfl)⟩

@[simp] lemma bump_total_state (b : CircuitBreaker) : b.bump_total.state = b.state := rfl

@[simp] lemma bump_total_failure_count (b : CircuitBreaker) :
    b.bump_total.failure_count = b.failure_count := rfl

@[simp] lemma bump_total_opened_at (b : CircuitBreaker) :
    b.bump_total.opened_at = b.opened_at := rfl

@[simp] lemma bump_total_timeout (b : CircuitBreaker) : b.bump_total.timeout = b.timeout := rfl

@[simp] lemma bump_total_threshold (b : CircuitBreaker) :
    b.bump_total.failure_threshold = b.failure_threshold := rfl

@[simp] lemma bump_total_expected (b : CircuitBreaker) :
    b.bump_total.expected_exception = b.expected_exception := rfl

@[simp] lemma bump_total_total_requests (b : CircuitBreaker) :
    b.bump_total.stats.total_requests = b.stats.total_requests + 1 := rfl

/-- The gate of `call` lets every non-OPEN state through unchanged. -/
lemma gate_not_open (b : CircuitBreaker) (now : ℚ) (h : b.state ≠ .OPEN) :
    b.gate now = (b, true) := by
  simp [CircuitBreaker.gate, h]

/-- The gate of `call` refuses an OPEN breaker whose cool-down has not
elapsed. -/
lemma gate_open_refuses (b : CircuitBreaker) (now t : ℚ) (hs : b.state = .OPEN)
    (ho : b.opened_at = some t) (hcool : now - t < b.timeout) :
    b.gate now = (b, false) := by
  have hr : b.should_attempt_reset now = false := by
    simp [CircuitBreaker.should_attempt_reset, ho, not_le.mpr hcool]
  simp [CircuitBreaker.gate, hs, hr]

/-- The gate of `call` moves an OPEN breaker with elapsed cool-down to
HALF_OPEN and lets the call through. -/
lemma gate_open_resets (b : CircuitBreaker) (now t : ℚ) (hs : b.state = .OPEN)
    (ho : b.opened_at = some t) (helap : b.timeout ≤ now - t) :
    b.gate now = (b.transition_to_half_open, true) := by
  have hr : b.should_attempt_reset now = true := by
    simp [CircuitBreaker.should_attempt_reset, ho, helap]
  simp [CircuitBreaker.gate, hs, hr]

/-- `call` on a CLOSED breaker with an expected exception invokes the
operation and records the failure. -/
lemma call_closed_exc {α : Type} (b : CircuitBreaker) (now : ℚ) (e : Exc)
    (hs : b.state = .CLOSED) (he : b.expected_exception e = true) :
    b.call now (Res.exc e : Res α)
      = (b.bump_total.on_failure now, Res.exc e, true) := by
  have h1 : b.bump_total.gate now = (b.bump_total, true) :=
    gate_not_open _ _ (by simp [hs])
  simp [CircuitBreaker.call, h1, he]

/-- Projections of `on_failure` on a CLOSED breaker. -/
lemma on_failure_closed (b : CircuitBreaker) (now : ℚ) (hs : b.state = .CLOSED) :
    (b.on_failure now).failure_count = b.failure_count + 1 ∧
    (b.on_failure now).failure_threshold = b.failure_threshold ∧
    (b.on_failure now).timeout = b.timeout ∧
    (b.on_failure now).expected_exception = b.expected_exception ∧
    ((b.failure_threshold ≤ b.failure_count + 1 →
        (b.on_failure now).state = .OPEN ∧ (b.on_failure now).opened_at = some now) ∧
     (b.failure_count + 1 < b.failure_threshold →
        (b.on_failure now).state = .CLOSED ∧ (b.on_failure now).opened_at = b.opened_at)) := by
  by_cases hth : b.failure_threshold ≤ b.failure_count + 1
  · simp [CircuitBreaker.on_failure, CircuitBreaker.open_circuit, hs, hth]
  · simp [CircuitBreaker.on_failure, hs, hth]

/-- A refused call: OPEN state, cool-down not yet elapsed. -/
lemma call_open_rejects {α : Type} (b : CircuitBreaker) (now t : ℚ) (r : Res α)
    (hs : b.state = .OPEN) (ho : b.opened_at = some t) (hcool : now - t < b.timeout) :
    b.call now r
      = (b.bump_total, Res.exc (.circuitBreakerError "Circuit breaker is OPEN"), false) := by
  have hg := gate_open_refuses b.bump_total now t (by simpa using hs) (by simpa using ho)
    (by simpa using hcool)
  simp [CircuitBreaker.call, hg]

/-- An allowed call lets the operation's outcome through unchanged. -/
lemma call_allowed_passes_result {α : Type} (b2 : CircuitBreaker) (b : CircuitBreaker)
    (now : ℚ) (r : Res α) (hg : b.bump_total.gate now = (b2, true)) :
    (b.call now r).2.1 = r ∧ (b.call now r).2.2 = true := by
  rcases r with v | e
  · simp [CircuitBreaker.call, hg]
  · by_cases he : b2.expected_exception e
    · simp [CircuitBreaker.call, hg, he]
    · simp [CircuitBreaker.call, hg, he]

/-- Invariant of `j ≤ failure_threshold` consecutive expected failures
against a breaker that starts CLOSED with a zero failure count: the
configuration is untouched, the count equals `j`, the breaker is still
CLOSED strictly below the threshold, and it is OPEN — stamped with the
time of the last failing call — the moment `j` reaches the threshold. -/
lemma iterate_calls_closed (b : CircuitBreaker) (e : Exc) (ti : ℕ → ℚ)
    (hs : b.state = .CLOSED) (hc : b.failure_count = 0)
    (he : b.expected_exception e = true) :
    ∀ j, j ≤ b.failure_threshold →
      (iterate_calls e ti b j).failure_threshold = b.failure_threshold ∧
      (iterate_calls e ti b j).timeout = b.timeout ∧
      (iterate_calls e ti b j).expected_exception = b.expected_exception ∧
      (iterate_calls e ti b j).failure_count = j ∧
      (j < b.failure_threshold → (iterate_calls e ti b j).state = .CLOSED) ∧
      (j = b.failure_threshold → 1 ≤ j →
        (iterate_calls e ti b j).state = .OPEN ∧
        (iterate_calls e ti b j).opened_at = some (ti (j - 1))) := by
  intro j
  induction j with
  | zero =>
    intro _
    exact ⟨rfl, rfl, rfl, hc, fun _ => hs, fun _ h1 => absurd h1 (by omega)⟩
  | succ j ih =>
    intro hj1
    have hjlt : j < b.failure_threshold := hj1
    obtain ⟨hthr, htmo, hexp, hcnt, hcl, _⟩ := ih (Nat.le_of_succ_le hj1)
    have hstate : (iterate_calls e ti b j).state = .CLOSED := hcl hjlt
    have hee : (iterate_calls e ti b j).expected_exception e = true := by
      rw [hexp]; exact he
    have hnext : iterate_calls e ti b (j + 1)
        = ((iterate_calls e ti b j).bump_total).on_failure (ti j) := by
      rw [iterate_calls, call_closed_exc (iterate_calls e ti b j) (ti j) e hstate hee]
    have hbstate : (iterate_calls e ti b j).bump_total.state = .CLOSED := by
      simpa using hstate
    obtain ⟨f1, f2, f3, f4, fopen, fclosed⟩ :=
      on_failure_closed (iterate_calls e ti b j).bump_total (ti j) hbstate
    have hbc : (iterate_calls e ti b j).bump_total.failure_count = j := by
      simpa using hcnt
    have hbt : (iterate_calls e ti b j).bump_total.failure_threshold
        = b.failure_threshold := by simpa using hthr
    refine ⟨?_, ?_, ?_, ?_, ?_, ?_⟩
    · rw [hnext, f2, hbt]
    · rw [hnext, f3]; simpa using htmo
    · rw [hnext, f4]; simpa using hexp
    · rw [hnext, f1, hbc]
    · intro hlt
      rw [hnext]
      exact (fclosed (by omega)).1
    · intro heq _
      have hth : (iterate_calls e ti b j).bump_total.failure_threshold
          ≤ (iterate_calls e ti b j).bump_total.failure_count + 1 := by
        rw [hbt, hbc]; omega
      refine ⟨by rw [hnext]; exact (fopen hth).1, ?_⟩
      rw [hnext, (fopen hth).2]
      simp

/-- C2: a CLOSED breaker with a zero failure count becomes OPEN — with
`opened_at` stamped by the final failure — after exactly
`failure_threshold` consecutive expected failures, and the very next
call issued before the cool-down elapses raises `CircuitBreakerError`
without invoking the wrapped operation. -/
theorem breaker_opens_at_threshold (b : CircuitBreaker) (e : Exc) (ti : ℕ → ℚ)
    (now : ℚ) (r : Res Unit)
    (hs : b.state = .CLOSED) (hc : b.failure_count = 0)
    (hth : 1 ≤ b.failure_threshold) (he : b.expected_exception e = true)
    (hcool : now - ti (b.failure_threshold - 1) < b.timeout) :
    (iterate_calls e ti b b.failure_threshold).state = .OPEN ∧
    (iterate_calls e ti b b.failure_threshold).opened_at
      = some (ti (b.failure_threshold - 1)) ∧
    ((iterate_calls e ti b b.failure_threshold).call now r).2
      = (Res.exc (.circuitBreakerError "Circuit breaker is OPEN"), false) := by
  obtain ⟨hthr, htmo, _, _, _, hop⟩ :=
    iterate_calls_closed b e ti hs hc he b.failure_threshold le_rfl
  obtain ⟨hst, hoa⟩ := hop rfl hth
  refine ⟨hst, hoa, ?_⟩
  rw [call_open_rejects (iterate_calls e ti b b.failure_threshold) now
    (ti (b.failure_threshold - 1)) r hst hoa (by rw [htmo]; exact hcool)]

/-- A fresh breaker with `failure_threshold = 3`, as in the module-level
`CircuitBreaker(failure_threshold=3, timeout=5)` self-test scaled to the
uploader's 60-second cool-down. -/
def closed_breaker : CircuitBreaker :=
  { failure_threshold := 3, timeout := 60, expected_exception := fun _ => true,
    half_open_max_attempts := 1, state := .CLOSED, failure_count := 0,
    half_open_attempts := 0, last_failure_time := none, opened_at := none,
    stats := {} }

/-- Witness for C2: three consecutive `ConnectionError`s at time 0 open
the breaker, and a call at time 1 (cool-down 60 not elapsed) is refused. -/
theorem breaker_opens_at_threshold_witness :
    (iterate_calls (Exc.connectionError "boom") (fun _ => 0) closed_breaker 3).state
        = .OPEN ∧
    (iterate_calls (Exc.connectionError "boom") (fun _ => 0) closed_breaker 3).opened_at
        = some 0 ∧
    ((iterate_calls (Exc.connectionError "boom") (fun _ => 0) closed_breaker 3).call 1
        (Res.ok ())).2
      = (Res.exc (.circuitBreakerError "Circuit breaker is OPEN"), false) :=
  breaker_opens_at_threshold closed_breaker (Exc.connectionError "boom") (fun _ => 0) 1
    (Res.ok ()) rfl rfl (by decide) rfl (by norm_num [closed_breaker])

/-- C3: a call against an OPEN breaker is refused while the cool-down has
not elapsed, and once `cool_down_duration` has elapsed since `opened_at`
the breaker first transitions to HALF_OPEN and the call is passed through
to the wrapped operation. -/
theorem breaker_open_gate {α : Type} (b : CircuitBreaker) (t now : ℚ) (r : Res α)
    (hs : b.state = .OPEN) (ho : b.opened_at = some t) :
    (now - t < b.timeout →
      b.call now r
        = (b.bump_total, Res.exc (.circuitBreakerError "Circuit breaker is OPEN"), false)) ∧
    (b.timeout ≤ now - t →
      (b.bump_total.gate now).1.state = .HALF_OPEN ∧
      (b.bump_total.gate now).2 = true ∧
      (b.call now r).2.1 = r ∧ (b.call now r).2.2 = true) := by
  constructor
  · intro hcool
    exact call_open_rejects b now t r hs ho hcool
  · intro helap
    have hg := gate_open_resets b.bump_total now t (by simpa using hs)
      (by simpa using ho) (by simpa using helap)
    obtain ⟨hr1, hr2⟩ := call_allowed_passes_result _ b now r hg
    exact ⟨by rw [hg]; rfl, by rw [hg], hr1, hr2⟩

/-- The uploader's shared breaker after it has opened at time 0. -/
def open_breaker : CircuitBreaker :=
  { failure_threshold := 5, timeout := 60, expected_exception := fun _ => true,
    half_open_max_attempts := 1, state := .OPEN, failure_count := 5,
    half_open_attempts := 0, last_failure_time := some 0, opened_at := some 0,
    stats := {} }

/-- Witness for C3: the breaker opened at time 0 with a 60-second
cool-down refuses a call at time 1 and admits a call at time 61 after
moving to HALF_OPEN. -/
theorem breaker_open_gate_witness :
    open_breaker.call 1 (Res.ok ())
        = (open_breaker.bump_total,
           Res.exc (.circuitBreakerError "Circuit breaker is OPEN"), false) ∧
    (open_breaker.bump_total.gate 61).1.state = .HALF_OPEN ∧
    (open_breaker.call 61 (Res.ok ())).2.2 = true := by
  have h1 := (breaker_open_gate open_breaker 0 1 (Res.ok ()) rfl rfl).1
    (by norm_num [open_breaker])
  have h2 := (breaker_open_gate open_breaker 0 61 (Res.ok ()) rfl rfl).2
    (by norm_num [open_breaker])
  exact ⟨h1, h2.1, h2.2.2.2⟩

/-- C4: a successful HALF_OPEN trial closes the circuit and resets
`failure_count` to 0 and `opened_at` to `None`; a failed HALF_OPEN trial
with an expected exception reopens the circuit with `opened_at` stamped
by the failure time. -/
theorem breaker_half_open_trial {α : Type} (b : CircuitBreaker) (now : ℚ) (v : α)
    (e : Exc) (hs : b.state = .HALF_OPEN) :
    ((b.call now (Res.ok v)).2.1 = Res.ok v ∧ (b.call now (Res.ok v)).2.2 = true ∧
     (b.call now (Res.ok v)).1.state = .CLOSED ∧
     (b.call now (Res.ok v)).1.failure_count = 0 ∧
     (b.call now (Res.ok v)).1.opened_at = none) ∧
    (b.expected_exception e = true →
     (b.call now (Res.exc e : Res α)).2.1 = Res.exc e ∧
     (b.call now (Res.exc e : Res α)).2.2 = true ∧
     (b.call now (Res.exc e : Res α)).1.state = .OPEN ∧
     (b.call now (Res.exc e : Res α)).1.opened_at = some now) := by
  have hg : b.bump_total.gate now = (b.bump_total, true) :=
    gate_not_open _ _ (by simp [hs])
  constructor
  · simp [CircuitBreaker.call, hg, CircuitBreaker.on_success, hs,
      CircuitBreaker.close_circuit]
  · intro he
    simp [CircuitBreaker.call, hg, he, CircuitBreaker.on_failure, hs,
      CircuitBreaker.open_circuit]

/-- The uploader's shared breaker probing recovery: HALF_OPEN, catch-all
expected exception. -/
def trial_breaker : CircuitBreaker :=
  { failure_threshold := 5, timeout := 60, expected_exception := fun _ => true,
    half_open_max_attempts := 1, state := .HALF_OPEN, failure_count := 5,
    half_open_attempts := 0, last_failure_time := some 0, opened_at := some 0,
    stats := {} }

/-- Witness for C4 on a concrete HALF_OPEN breaker at time 61. -/
theorem breaker_half_open_trial_witness :
    ((trial_breaker.call 61 (Res.ok ())).2.1 = Res.ok () ∧
     (trial_breaker.call 61 (Res.ok ())).2.2 = true ∧
     (trial_breaker.call 61 (Res.ok ())).1.state = .CLOSED ∧
     (trial_breaker.call 61 (Res.ok ())).1.failure_count = 0 ∧
     (trial_breaker.call 61 (Res.ok ())).1.opened_at = none) ∧
    (trial_breaker.expected_exception (Exc.connectionError "x") = true →
     (trial_breaker.call 61 (Res.exc (Exc.connectionError "x") : Res Unit)).2.1
        = Res.exc (Exc.connectionError "x") ∧
     (trial_breaker.call 61 (Res.exc (Exc.connectionError "x") : Res Unit)).2.2 = true ∧
     (trial_breaker.call 61 (Res.exc (Exc.connectionError "x") : Res Unit)).1.state
        = .OPEN ∧
     (trial_breaker.call 61 (Res.exc (Exc.connectionError "x") : Res Unit)).1.opened_at
        = some 61) :=
  breaker_half_open_trial trial_breaker 61 () (Exc.connectionError "x") rfl

/-- A breaker probing recovery whose `expected_exception` is
`ConnectionError`, as in the class docstring's own example. -/
def half_open_conn_breaker : CircuitBreaker :=
  { failure_threshold := 5, timeout := 60,
    expected_exception := fun e => match e with
      | .connectionError _ => true
      | _ => false,
    half_open_max_attempts := 1, state := .HALF_OPEN, failure_count := 5,
    half_open_attempts := 0, last_failure_time := some 0, opened_at := some 0,
    stats := {} }

/-- C7 evaluated at its failing input: `call` applies no limit in
HALF_OPEN — `half_open_attempts` is never incremented and
`half_open_max_attempts` is never read — so with
`half_open_max_attempts = 1` two consecutive calls whose `ValueError`
escapes the `except self.expected_exception` clause are both passed
through to the wrapped operation while the breaker remains HALF_OPEN. -/
theorem breaker_half_open_trials_not_limited :
    half_open_conn_breaker.half_open_max_attempts = 1 ∧
    (half_open_conn_breaker.call 1 (Res.exc (Exc.valueError "boom") : Res Unit)).2.2
        = true ∧
    ((half_open_conn_breaker.call 1 (Res.exc (Exc.valueError "boom") : Res Unit)).1).state
        = .HALF_OPEN ∧
    (((half_open_conn_breaker.call 1
          (Res.exc (Exc.valueError "boom") : Res Unit)).1).call 1
        (Res.exc (Exc.valueError "boom") : Res Unit)).2.2 = true ∧
    (((half_open_conn_breaker.call 1
          (Res.exc (Exc.valueError "boom") : Res Unit)).1).call 1
        (Res.exc (Exc.valueError "boom") : Res Unit)).1.state = .HALF_OPEN := by
  decide

/-- One retry attempt against an OPEN breaker mid-cool-down: the gate
refuses, the operation-outcome stream does not advance, the time index
does, and the raised error is `CircuitBreakerError`. -/
lemma breaker_op_reject (outcomes : ℕ → Res Unit) (ti : ℕ → ℚ) (b : CircuitBreaker)
    (t : ℚ) (k j : ℕ) (hs : b.state = .OPEN) (ho : b.opened_at = some t)
    (hcool : ti j - t < b.timeout) :
    breaker_op outcomes ti (b, k, j)
      = ((b.bump_total, k, j + 1),
         Res.exc (.circuitBreakerError "Circuit breaker is OPEN"), 0) := by
  simp [breaker_op, call_open_rejects b (ti j) t (outcomes k) hs ho hcool]

/-- The composed upload guard spinning against an OPEN breaker whose
cool-down never elapses during the retry loop: every one of the three
retry attempts enters the breaker gate (`total_requests` grows by one per
attempt) and is refused, the real operation is never invoked, and the
loop ends by re-raising the `CircuitBreakerError` — the catch-all
`(Exception,)` retry predicate treats the circuit-open rejection as
retryable. -/
lemma guarded_upload_open_spin (b : CircuitBreaker) (t : ℚ)
    (outcomes : ℕ → Res Unit) (ti : ℕ → ℚ)
    (hs : b.state = .OPEN) (ho : b.opened_at = some t)
    (hcool : ∀ j, ti j - t < b.timeout) :
    perform_gcs_upload_guarded outcomes ti b
      = ((b.bump_total.bump_total.bump_total, 0, 3),
         Res.exc (.circuitBreakerError "Circuit breaker is OPEN"), 0) := by
  have h1s : b.bump_total.state = .OPEN := by simpa using hs
  have h1o : b.bump_total.opened_at = some t := by simpa using ho
  have h2s : b.bump_total.bump_total.state = .OPEN := by simpa using hs
  have h2o : b.bump_total.bump_total.opened_at = some t := by simpa using ho
  have e0 := breaker_op_reject outcomes ti b t 0 0 hs ho (hcool 0)
  have e1 := breaker_op_reject outcomes ti b.bump_total t 0 1 h1s h1o
    (by simpa using hcool 1)
  have e2 := breaker_op_reject outcomes ti b.bump_total.bump_total t 0 2 h2s h2o
    (by simpa using hcool 2)
  have hfuel : MAX_RETRIES.toNat = 3 := rfl
  unfold perform_gcs_upload_guarded retry_with_backoff
  rw [hfuel]
  simp [retryAux, e0, e1, e2, -Prod.mk_zero_zero]

/-- C5 amended: the source stacks `@retry_with_backoff(...)` above
`@gcs_circuit_breaker`, so the retry wrapper is outermost and every one
of its `MAX_RETRIES = 3` attempts passes through the breaker; and since
the retry predicate is the catch-all `(Exception,)`, a circuit-open
rejection is retryable — against a breaker that stays mid-cool-down the
loop consumes all three attempts (three gate entries, zero operation
invocations) before re-raising `CircuitBreakerError`, instead of
propagating it after the first attempt. -/
theorem guarded_upload_retries_circuit_open (b : CircuitBreaker) (t : ℚ)
    (outcomes : ℕ → Res Unit) (ti : ℕ → ℚ)
    (hs : b.state = .OPEN) (ho : b.opened_at = some t)
    (hcool : ∀ j, ti j - t < b.timeout) :
    perform_gcs_upload_guarded outcomes ti b
      = ((b.bump_total.bump_total.bump_total, 0, 3),
         Res.exc (.circuitBreakerError "Circuit breaker is OPEN"), 0) ∧
    (b.bump_total.bump_total.bump_total).stats.total_requests
      = b.stats.total_requests + 3 := by
  refine ⟨guarded_upload_open_spin b t outcomes ti hs ho hcool, ?_⟩
  simp

/-- Counterexample to C5 as stated: against the breaker opened at time 0,
with every attempt issued at time 1 (cool-down 60 not elapsed), the
guarded upload's circuit-open rejection is not propagated immediately —
the retry loop re-enters the breaker gate three times
(`total_requests` ends at 3), invokes the real operation zero times, and
only then re-raises `CircuitBreakerError`; under the claimed
breaker-outermost composition with a non-retryable circuit-open error
there would be a single gate entry. -/
theorem guarded_upload_circuit_open_counterexample :
    (perform_gcs_upload_guarded (fun _ => Res.exc (.connectionError "x"))
        (fun _ => 1) open_breaker).1.1.stats.total_requests = 3 ∧
    (perform_gcs_upload_guarded (fun _ => Res.exc (.connectionError "x"))
        (fun _ => 1) open_breaker).2.1
      = Res.exc (.circuitBreakerError "Circuit breaker is OPEN") ∧
    (perform_gcs_upload_guarded (fun _ => Res.exc (.connectionError "x"))
        (fun _ => 1) open_breaker).2.2 = 0 := by
  have h := guarded_upload_open_spin open_breaker 0
    (fun _ => Res.exc (.connectionError "x")) (fun _ => 1) rfl rfl
    (fun _ => by norm_num [open_breaker])
  rw [h]
  refine ⟨?_, rfl, rfl⟩
  simp [open_breaker, CircuitBreaker.bump_total]

/-- Witness for the amended C5 at the concrete opened breaker. -/
theorem guarded_upload_retries_circuit_open_witness :
    perform_gcs_upload_guarded (fun _ => Res.exc (Exc.connectionError "y"))
        (fun _ => 2) open_breaker
      = ((open_breaker.bump_total.bump_total.bump_total, 0, 3),
         Res.exc (.circuitBreakerError "Circuit breaker is OPEN"), 0) ∧
    (open_breaker.bump_total.bump_total.bump_total).stats.total_requests
      = open_breaker.stats.total_requests + 3 :=
  guarded_upload_retries_circuit_open open_breaker 0
    (fun _ => Res.exc (Exc.connectionError "y")) (fun _ => 2) rfl rfl
    (fun _ => by norm_num [open_breaker])

/-- C9: the effective (second, shadowing) `upload_file` raises
`NameError` on the undefined `results` for every input whose local-file
and GCS-path validations all pass, never consults the upload capability
and never returns an `UploadResult` there; an input failing some
validation returns a failure `UploadResult` instead. -/
theorem upload_file_shadowed_name_error (u : Res Unit) (f : LocalFile)
    (c : UploadConfig) :
    (upload_validations_pass f c = true →
      (upload_file u f c = .error (.nameError "name 'results' is not defined") ∧
       (∀ u', upload_file u' f c = upload_file u f c) ∧
       (∀ r, upload_file u f c ≠ .ok r))) ∧
    (upload_validations_pass f c = false →
      ∃ r, upload_file u f c = .ok r ∧ r.success = false) := by
  constructor
  · intro hv
    simp only [upload_validations_pass, Bool.and_eq_true, decide_eq_true_eq] at hv
    obtain ⟨⟨⟨⟨h1, h2⟩, h3⟩, h4⟩, h5⟩ := hv
    have heq : upload_file u f c
        = .error (.nameError "name 'results' is not defined") := by
      simp [upload_file, h1, h2, h5, not_lt.mpr h3, not_lt.mpr h4]
    exact ⟨heq, fun u' => rfl,
      fun r hr => by rw [heq] at hr; exact Except.noConfusion hr⟩
  · intro hv
    by_cases h1 : f.path_exists = true
    swap
    · refine ⟨UploadResultM.mk false none 0 (some "File not found"), ?_, rfl⟩
      have h1' : f.path_exists = false := by simpa using h1
      simp [upload_file, h1']
    by_cases h2 : f.is_file = true
    swap
    · refine ⟨UploadResultM.mk false none 0 (some "Path is not a file"), ?_, rfl⟩
      have h2' : f.is_file = false := by simpa using h2
      simp [upload_file, h1, h2']
    by_cases h3 : f.st_size < MIN_FILE_SIZE_BYTES
    · refine ⟨UploadResultM.mk false none f.st_size (some "File too small"), ?_, rfl⟩
      simp [upload_file, h1, h2, h3]
    by_cases h4 : MAX_FILE_SIZE_MB * 1024 * 1024 < f.st_size
    · refine ⟨UploadResultM.mk false none f.st_size (some "File too large"), ?_, rfl⟩
      simp [upload_file, h1, h2, h3, h4]
    by_cases h5 : validate_gcs_path c.bucket_name c.destination_folder = true
    · exfalso
      rw [upload_validations_pass] at hv
      simp [h1, h2, h5, Nat.not_lt.mp h3, Nat.not_lt.mp h4] at hv
    · refine ⟨UploadResultM.mk false none f.st_size
          (some "Invalid GCS path configuration"), ?_, rfl⟩
      have h5' : validate_gcs_path c.bucket_name c.destination_folder = false := by
        simpa using h5
      simp [upload_file, h1, h2, h3, h4, h5']

/-- Witness for C9: a 100-byte existing regular file bound for
`gs://my-bucket/seed/` hits the `NameError`; the same upload with a
missing local file returns a failure result. -/
theorem upload_file_shadowed_name_error_witness :
    upload_file (Res.ok ()) ⟨true, true, 100⟩ ⟨"my-bucket", "seed/"⟩
        = .error (.nameError "name 'results' is not defined") ∧
    (∃ r, upload_file (Res.ok ()) ⟨false, true, 100⟩ ⟨"my-bucket", "seed/"⟩
        = .ok r ∧ r.success = false) :=
  ⟨((upload_file_shadowed_name_error (Res.ok ()) ⟨true, true, 100⟩
      ⟨"my-bucket", "seed/"⟩).1 (by decide)).1,
   (upload_file_shadowed_name_error (Res.ok ()) ⟨false, true, 100⟩
      ⟨"my-bucket", "seed/"⟩).2 (by decide)⟩

end Mixamo
